import Mathlib

/-!
Shallow embedding of the image-similarity scoring engine of the
`image_stand` repository (files `src/services/comparison.py`,
`src/services/image_embeddings.py`, `src/graphs/image_comparison.py`,
`src/config.py`, `src/main.py`).

Modelling decisions:
* Python floats become `ℚ`.  All the arithmetic the claims are about
  (threshold adjustment, piecewise rescaling, weight normalization,
  percentage conversion) is exact rational arithmetic in the source.
* Effectful library calls (PIL image decoding, `skimage` SSIM, CLIP
  embedding extraction, numpy cosine similarity which needs a square
  root, and the float power used by the legacy branch) are abstracted
  into an explicit environment `CompareEnv` of oracle functions; the
  control flow around them is translated literally.
* Python `round(x, n)` becomes `roundTo n x` (round to `n` decimal
  digits; the binary-float tie-breaking of CPython is abstracted).
* A raised-and-caught exception becomes an `Option`/failure result.
-/

namespace ImageStand

/-- Round a rational to `digits` decimal digits, modelling Python's
`round(x, digits)` (float tie-breaking abstracted). -/
def roundTo (digits : ℕ) (q : ℚ) : ℚ :=
  (round (q * 10 ^ digits) : ℤ) / 10 ^ digits

/-- `ComparisonResult` dataclass of `src/services/comparison.py`:
all optional fields default to `None`. -/
structure ComparisonResult where
  success : Bool
  similarity_score : Option ℚ := none
  similarity_percentage : Option ℚ := none
  method : Option String := none
  error : Option String := none
deriving DecidableEq, Repr

/-- The configuration values of `src/config.py` that the comparison
code reads (`settings.*`).  Field defaults follow the env-var defaults. -/
structure AppSettings where
  similarity_model : String := "hybrid"
  similarity_sensitivity : ℚ := 1
  similarity_use_nonlinear : Bool := true
  similarity_min_threshold : ℚ := 3/10
  similarity_max_threshold : ℚ := 7/10
  similarity_embedding_weight : ℚ := 7/10
  similarity_ssim_weight : ℚ := 3/10
deriving Repr

/-- Oracle environment abstracting the effectful library calls made by
the comparison service.  Images are byte buffers (`List ℕ`).
* `decode b` : width and height of the decoded (RGB-converted) image,
  `none` when PIL raises on unreadable bytes.
* `rawSSIM b1 b2 target win` : the raw SSIM statistic computed by
  `skimage` on the two buffers resized to `target` with window `win`;
  `none` when the library raises.
* `extract b` : `extract_image_embedding` of
  `src/services/image_embeddings.py`; it catches all its own errors and
  returns `None` when the model is unavailable or inference fails.
* `cosSim e1 e2` : `cosine_similarity` of the two embedding vectors
  (needs a square root, hence an oracle).
* `powOracle b e` : the float power `b ** e` used by the legacy
  sensitivity branch of the hybrid method. -/
structure CompareEnv where
  decode : List ℕ → Option (ℕ × ℕ)
  rawSSIM : List ℕ → List ℕ → ℕ × ℕ → ℤ → Option ℚ
  extract : List ℕ → Option (List ℚ)
  cosSim : List ℚ → List ℚ → ℚ
  powOracle : ℚ → ℚ → ℚ

/-- The piecewise block of `apply_nonlinear_scaling`
(`comparison.py` lines 71-91), acting on the already-normalized score
and the already-adjusted thresholds. -/
def scale_piecewise (adjusted_min adjusted_max normalized_score : ℚ) : ℚ :=
  if normalized_score < adjusted_min then
    if 0 < adjusted_min then normalized_score * ((1/10) / adjusted_min) else 0
  else if adjusted_max < normalized_score then
    let range_size := 1 - adjusted_max
    if 0 < range_size then
      3/5 + (normalized_score - adjusted_max) * ((2/5) / range_size)
    else 3/5
  else
    let middle_range := adjusted_max - adjusted_min
    if 0 < middle_range then
      1/10 + (normalized_score - adjusted_min) * ((1/2) / middle_range)
    else 1/10

/-- `apply_nonlinear_scaling` of `src/services/comparison.py`
(lines 24-95), translated literally: sensitivity-adjusted clamped
thresholds, score normalization (negative scores mapped by
`(r+1)/2`, non-negative scores clamped to `[0,1]`), the piecewise
rescale, and the final map of `[0,1]` back to `[-1,1]`. -/
def apply_nonlinear_scaling (raw_score : ℚ) (sensitivity : ℚ := 1)
    (min_threshold : ℚ := 3/10) (max_threshold : ℚ := 7/10)
    (use_nonlinear : Bool := true) : ℚ :=
  if !use_nonlinear then raw_score
  else
    let adjusted_min := max 0 (min (1/2) (min_threshold / sensitivity))
    let adjusted_max := max (1/2) (min 1 (max_threshold * sensitivity))
    let normalized_score :=
      if raw_score < 0 then (raw_score + 1) / 2 else max 0 (min 1 raw_score)
    let scaled := scale_piecewise adjusted_min adjusted_max normalized_score
    scaled * 2 - 1

/-- The SSIM window-size computation of `compare_images`
(`comparison.py` lines 134-135):
`win_size = min(7, min_dim if min_dim % 2 == 1 else min_dim - 1)`.
Computed in `ℤ` because Python's `min_dim - 1` can go negative. -/
def ssim_win_size (min_dim : ℕ) : ℤ :=
  min 7 (if min_dim % 2 = 1 then (min_dim : ℤ) else (min_dim : ℤ) - 1)

/-- `compare_images` of `src/services/comparison.py` (lines 98-153):
decode both images, resize both to the element-wise minimum of the two
sizes, run SSIM with the computed window, convert the raw statistic to
a percentage; any raised exception yields a failure result. -/
def compare_images (env : CompareEnv) (image1_bytes image2_bytes : List ℕ) :
    ComparisonResult :=
  match env.decode image1_bytes, env.decode image2_bytes with
  | some (w1, h1), some (w2, h2) =>
    let target_size : ℕ × ℕ := (min w1 w2, min h1 h2)
    let min_dim := min target_size.1 target_size.2
    let win_size := ssim_win_size min_dim
    match env.rawSSIM image1_bytes image2_bytes target_size win_size with
    | some score =>
      let percentage := (score + 1) / 2 * 100
      { success := true
        similarity_score := some (roundTo 4 score)
        similarity_percentage := some (roundTo 2 percentage)
        method := some "ssim" }
    | none =>
      { success := false, error := some "Image comparison failed: ssim raised" }
  | _, _ =>
    { success := false, error := some "Image comparison failed: decode raised" }

/-- `compare_images_embeddings` of `src/services/comparison.py`
(lines 177-245): extract both embeddings, fall back to `compare_images`
when either is unavailable, otherwise clamp the cosine similarity to
`[0,1]`, calibrate it (or linearly rescale when non-linear scaling is
disabled), and report the clamped percentage together with the raw
clamped similarity. -/
def compare_images_embeddings (env : CompareEnv) (st : AppSettings)
    (image1_bytes image2_bytes : List ℕ) (sensitivity : ℚ := 1) :
    ComparisonResult :=
  match env.extract image1_bytes, env.extract image2_bytes with
  | some emb1, some emb2 =>
    let similarity := max 0 (min 1 (env.cosSim emb1 emb2))
    let scaled_similarity :=
      if st.similarity_use_nonlinear then
        apply_nonlinear_scaling similarity sensitivity
          st.similarity_min_threshold st.similarity_max_threshold true
      else similarity * 2 - 1
    let percentage := (scaled_similarity + 1) / 2 * 100
    let percentage := max 0 (min 100 percentage)
    { success := true
      similarity_score := some (roundTo 4 similarity)
      similarity_percentage := some (roundTo 2 percentage)
      method := some "embeddings" }
  | _, _ => compare_images env image1_bytes image2_bytes

/-- `compare_images_hybrid` of `src/services/comparison.py`
(lines 248-352): normalize the weights, compute the structural result
(falling back to embeddings-only when it fails), extract both
embeddings (falling back to the structural result tagged `"ssim"` when
either is unavailable), combine the two scores with the normalized
weights, clamp, calibrate (or apply the legacy divide/power adjustment
when non-linear scaling is disabled), and report the combined score and
the clamped percentage. -/
def compare_images_hybrid (env : CompareEnv) (st : AppSettings)
    (image1_bytes image2_bytes : List ℕ)
    (embedding_weight : ℚ := 7/10) (ssim_weight : ℚ := 3/10)
    (sensitivity : ℚ := 1) : ComparisonResult :=
  let total_weight := embedding_weight + ssim_weight
  let ew := if 0 < total_weight then embedding_weight / total_weight else 7/10
  let sw := if 0 < total_weight then ssim_weight / total_weight else 3/10
  let ssim_result := compare_images env image1_bytes image2_bytes
  if ssim_result.success = false then
    compare_images_embeddings env st image1_bytes image2_bytes sensitivity
  else
    match env.extract image1_bytes, env.extract image2_bytes with
    | some emb1, some emb2 =>
      let emb_similarity := max 0 (min 1 (env.cosSim emb1 emb2))
      match ssim_result.similarity_score with
      | some s =>
        let ssim_score_normalized := (s + 1) / 2
        let combined_score := ssim_score_normalized * sw + emb_similarity * ew
        let combined_score := max 0 (min 1 combined_score)
        let scaled_score :=
          if st.similarity_use_nonlinear then
            apply_nonlinear_scaling combined_score sensitivity
              st.similarity_min_threshold st.similarity_max_threshold true
          else
            let adjusted_score :=
              if sensitivity ≠ 1 ∧ 0 < combined_score then
                if 2 ≤ sensitivity then combined_score / sensitivity
                else env.powOracle combined_score (1 / sensitivity)
              else combined_score
            adjusted_score * 2 - 1
        let percentage := (scaled_score + 1) / 2 * 100
        let percentage := max 0 (min 100 percentage)
        { success := true
          similarity_score := some (roundTo 4 combined_score)
          similarity_percentage := some (roundTo 2 percentage)
          method := some "hybrid" }
      | none =>
        { success := false
          error := some "Hybrid comparison failed: missing structural score" }
    | _, _ => { ssim_result with method := some "ssim" }

/-- The sensitivity setter of `src/config.py`
(`similarity_sensitivity.setter`, lines 102-107): values outside
`[0.1, 10.0]` raise `ValueError`, in-range values are stored. -/
def set_sensitivity (value : ℚ) : Except String ℚ :=
  if value < 1/10 ∨ 10 < value then
    Except.error "Sensitivity must be between 0.1 and 10.0"
  else Except.ok value

/-- `ImageComparisonState` of `src/graphs/image_comparison.py`. -/
structure ImageComparisonState where
  image1_bytes : List ℕ
  image2_bytes : List ℕ
  method : Option String
  sensitivity : Option ℚ
  success : Bool
  similarity_score : Option ℚ
  similarity_percentage : Option ℚ
  method_used : Option String
  error : Option String
deriving DecidableEq, Repr

/-- Python truthiness of an `Optional[str]`: `None` and the empty
string are falsy. -/
def strTruthy : Option String → Bool
  | some s => s ≠ ""
  | none => false

/-- Python `x or default` for an `Optional[str]` value. -/
def pyOrStr (v : Option String) (default : String) : String :=
  match v with
  | some s => if s = "" then default else s
  | none => default

/-- Python `x or default` for an `Optional[float]` value (note that
`0.0` is falsy and is replaced by the default). -/
def pyOrQ (v : Option ℚ) (default : ℚ) : ℚ :=
  match v with
  | some s => if s = 0 then default else s
  | none => default

/-- `validate_images` node of `src/graphs/image_comparison.py`
(lines 41-57): an empty (or missing) byte buffer fails validation with
a message naming the missing image. -/
def validate_images (state : ImageComparisonState) : ImageComparisonState :=
  if state.image1_bytes = [] then
    { state with success := false, error := some "First image is required" }
  else if state.image2_bytes = [] then
    { state with success := false, error := some "Second image is required" }
  else state

/-- `compare` node of `src/graphs/image_comparison.py` (lines 60-140):
resolve method and sensitivity (per-call value, falling back to the
configured default by Python `or`), dispatch to the selected comparison
function, and copy the result into the state.  The `run_in_executor`
indirection only moves the same call to a thread pool. -/
def compare_node (env : CompareEnv) (st : AppSettings)
    (state : ImageComparisonState) : ImageComparisonState :=
  if strTruthy state.error then state
  else
    let method := pyOrStr state.method st.similarity_model
    let sensitivity := pyOrQ state.sensitivity st.similarity_sensitivity
    let result :=
      if method = "embeddings" then
        compare_images_embeddings env st state.image1_bytes state.image2_bytes
          sensitivity
      else if method = "hybrid" then
        compare_images_hybrid env st state.image1_bytes state.image2_bytes
          st.similarity_embedding_weight st.similarity_ssim_weight sensitivity
      else
        let r := compare_images env state.image1_bytes state.image2_bytes
        if r.method = none then { r with method := some "ssim" } else r
    { state with
      success := result.success
      similarity_score := result.similarity_score
      similarity_percentage := result.similarity_percentage
      method_used := some (pyOrStr result.method method)
      error := result.error }

/-- `should_compare` router of `src/graphs/image_comparison.py`
(lines 143-147). -/
def should_compare (state : ImageComparisonState) : String :=
  if strTruthy state.error then "end" else "compare"

/-- `run_image_comparison` of `src/graphs/image_comparison.py`
(lines 177-197): build the initial state, run the `validate` node, and
run the `compare` node unless the router sends the graph to `END`. -/
def run_image_comparison (env : CompareEnv) (st : AppSettings)
    (image1_bytes image2_bytes : List ℕ)
    (method : Option String) (sensitivity : Option ℚ) :
    ImageComparisonState :=
  let initial_state : ImageComparisonState :=
    { image1_bytes := image1_bytes
      image2_bytes := image2_bytes
      method := method
      sensitivity := sensitivity
      success := false
      similarity_score := none
      similarity_percentage := none
      method_used := none
      error := none }
  let validated := validate_images initial_state
  if should_compare validated = "end" then validated
  else compare_node env st validated

/-- A concrete oracle environment used to instantiate hypotheses of the
proved theorems: every image decodes to 8x8, SSIM returns 1/2, CLIP
embeddings are available and their cosine similarity is 9/10. -/
def sampleEnv : CompareEnv :=
  { decode := fun _ => some (8, 8)
    rawSSIM := fun _ _ _ _ => some (1/2)
    extract := fun _ => some [1, 0]
    cosSim := fun _ _ => 9/10
    powOracle := fun b _ => b }

/-- `sampleEnv` with the embedding encoder unavailable
(`extract_image_embedding` returns `None`). -/
def sampleEnvNoEmb : CompareEnv :=
  { sampleEnv with extract := fun _ => none }

/-- The default settings (every env var unset). -/
def defaultSettings : AppSettings := {}

/-- Well-formedness of a `ComparisonResult`: exactly one of
(success with non-null score and percentage and null error) or
(failure with non-null error and null score and percentage). -/
def result_wellformed (r : ComparisonResult) : Prop :=
  (r.success = true ∧ r.similarity_score ≠ none
    ∧ r.similarity_percentage ≠ none ∧ r.error = none)
  ∨ (r.success = false ∧ r.error ≠ none
    ∧ r.similarity_score = none ∧ r.similarity_percentage = none)

/-! ### Helper lemmas about the calibration function -/

theorem apply_nonlinear_scaling_eq (raw_score sensitivity mn mx : ℚ) :
    apply_nonlinear_scaling raw_score sensitivity mn mx true =
      scale_piecewise (max 0 (min (1/2) (mn / sensitivity)))
        (max (1/2) (min 1 (mx * sensitivity)))
        (if raw_score < 0 then (raw_score + 1) / 2 else max 0 (min 1 raw_score))
        * 2 - 1 := rfl

theorem scale_piecewise_low (amin amax n : ℚ) (ha : 0 < amin) (h : n < amin) :
    scale_piecewise amin amax n = n * ((1/10) / amin) := by
  unfold scale_piecewise
  rw [if_pos h, if_pos ha]

theorem scale_piecewise_lt_of_low (amin amax n : ℚ) (ha : 0 < amin)
    (h : n < amin) : scale_piecewise amin amax n < 1/10 := by
  rw [scale_piecewise_low amin amax n ha h]
  have hc : (0:ℚ) < (1/10) / amin := div_pos (by norm_num) ha
  have e1 : amin * ((1/10) / amin) = 1/10 := by field_simp; ring
  have := mul_lt_mul_of_pos_right h hc
  linarith

theorem scale_piecewise_mid (amin amax n : ℚ) (h1 : ¬ n < amin)
    (h2 : ¬ amax < n) :
    scale_piecewise amin amax n =
      if 0 < amax - amin then
        1/10 + (n - amin) * ((1/2) / (amax - amin))
      else 1/10 := by
  unfold scale_piecewise
  rw [if_neg h1, if_neg h2]

theorem scale_piecewise_mid_bounds (amin amax n : ℚ) (h1 : ¬ n < amin)
    (h2 : ¬ amax < n) :
    1/10 ≤ scale_piecewise amin amax n ∧ scale_piecewise amin amax n ≤ 3/5 := by
  rw [scale_piecewise_mid amin amax n h1 h2]
  push_neg at h1 h2
  split_ifs with hmr
  · have hc : (0:ℚ) ≤ (1/2) / (amax - amin) := div_nonneg (by norm_num) hmr.le
    constructor
    · nlinarith [mul_nonneg (sub_nonneg.mpr h1) hc]
    · have e : (amax - amin) * ((1/2) / (amax - amin)) = 1/2 := by
        field_simp
        ring
      have hle : (n - amin) * ((1/2) / (amax - amin))
          ≤ (amax - amin) * ((1/2) / (amax - amin)) :=
        mul_le_mul_of_nonneg_right (by linarith) hc
      linarith
  · norm_num

theorem scale_piecewise_high (amin amax n : ℚ) (h1 : ¬ n < amin)
    (h2 : amax < n) :
    scale_piecewise amin amax n =
      if 0 < 1 - amax then
        3/5 + (n - amax) * ((2/5) / (1 - amax))
      else 3/5 := by
  unfold scale_piecewise
  rw [if_neg h1, if_pos h2]

theorem scale_piecewise_high_ge (amin amax n : ℚ) (h1 : ¬ n < amin)
    (h2 : amax < n) : 3/5 ≤ scale_piecewise amin amax n := by
  rw [scale_piecewise_high amin amax n h1 h2]
  split_ifs with hrs
  · have hc : (0:ℚ) ≤ (2/5) / (1 - amax) := div_nonneg (by norm_num) hrs.le
    nlinarith [mul_nonneg (by linarith : (0:ℚ) ≤ n - amax) hc]
  · exact le_refl _

theorem scale_piecewise_mono (amin amax n1 n2 : ℚ) (ha : 0 < amin)
    (h12 : n1 ≤ n2) :
    scale_piecewise amin amax n1 ≤ scale_piecewise amin amax n2 := by
  rcases lt_or_le n1 amin with l1 | l1
  · rcases lt_or_le n2 amin with l2 | l2
    · rw [scale_piecewise_low amin amax n1 ha l1,
        scale_piecewise_low amin amax n2 ha l2]
      exact mul_le_mul_of_nonneg_right h12 (div_nonneg (by norm_num) ha.le)
    · have b1 := scale_piecewise_lt_of_low amin amax n1 ha l1
      rcases lt_or_le amax n2 with m2 | m2
      · have b2 := scale_piecewise_high_ge amin amax n2 (not_lt.mpr l2) m2
        linarith
      · have b2 := (scale_piecewise_mid_bounds amin amax n2 (not_lt.mpr l2)
          (not_lt.mpr m2)).1
        linarith
  · rcases lt_or_le amax n1 with m1 | m1
    · have l2 : ¬ n2 < amin := not_lt.mpr (le_trans l1 h12)
      have m2 : amax < n2 := lt_of_lt_of_le m1 h12
      rw [scale_piecewise_high amin amax n1 (not_lt.mpr l1) m1,
        scale_piecewise_high amin amax n2 l2 m2]
      split_ifs with hrs
      · have hc : (0:ℚ) ≤ (2/5) / (1 - amax) := div_nonneg (by norm_num) hrs.le
        have := mul_le_mul_of_nonneg_right (sub_le_sub_right h12 amax) hc
        linarith
      · exact le_refl _
    · rcases lt_or_le amax n2 with m2 | m2
      · have u1 := (scale_piecewise_mid_bounds amin amax n1 (not_lt.mpr l1)
          (not_lt.mpr m1)).2
        have u2 := scale_piecewise_high_ge amin amax n2
          (not_lt.mpr (le_trans l1 h12)) m2
        linarith
      · rw [scale_piecewise_mid amin amax n1 (not_lt.mpr l1) (not_lt.mpr m1),
          scale_piecewise_mid amin amax n2 (not_lt.mpr (le_trans l1 h12))
            (not_lt.mpr m2)]
        split_ifs with hmr
        · have hc : (0:ℚ) ≤ (1/2) / (amax - amin) :=
            div_nonneg (by norm_num) hmr.le
          have := mul_le_mul_of_nonneg_right (sub_le_sub_right h12 amin) hc
          linarith
        · exact le_refl _

/-! ### Claim theorems -/

/-- Claim C1 (counterexample): with sensitivity 1 and the fixed thresholds
(0.3, 0.7), the calibration is not monotone over raw scores in
`[-1, 1]`: the raw scores `-1/2 ≤ 1/10` calibrate in the opposite
order, because a negative raw score is normalized by `(r+1)/2` while a
non-negative one is clamped, so `-1/2` normalizes above `1/10`. -/
theorem apply_nonlinear_scaling_not_monotone :
    (-1 : ℚ) ≤ -(1/2) ∧ (-(1/2) : ℚ) ≤ 1/10 ∧ ((1/10 : ℚ) ≤ 1)
    ∧ ((1/10 : ℚ) ≤ 1 ∧ (1 : ℚ) ≤ 10)
    ∧ apply_nonlinear_scaling (1/10) 1 (3/10) (7/10) true
      < apply_nonlinear_scaling (-(1/2)) 1 (3/10) (7/10) true := by
  norm_num [apply_nonlinear_scaling, scale_piecewise, min_def, max_def]

/-- Claim C1 (amended): for every sensitivity `s ∈ [0.1, 10]` and fixed
thresholds (0.3, 0.7) with non-linear scaling enabled, the calibration
is monotonically non-decreasing over raw scores in `[0, 1]` (the range
its callers actually feed it, after clamping). -/
theorem apply_nonlinear_scaling_mono_nonneg (s r1 r2 : ℚ)
    (hs1 : 1/10 ≤ s) (hs2 : s ≤ 10) (h0 : 0 ≤ r1) (h12 : r1 ≤ r2)
    (h1 : r2 ≤ 1) :
    apply_nonlinear_scaling r1 s (3/10) (7/10) true
      ≤ apply_nonlinear_scaling r2 s (3/10) (7/10) true := by
  have hspos : (0:ℚ) < s := lt_of_lt_of_le (by norm_num) hs1
  have h01 : r1 ≤ 1 := le_trans h12 h1
  have h02 : 0 ≤ r2 := le_trans h0 h12
  rw [apply_nonlinear_scaling_eq, apply_nonlinear_scaling_eq,
    if_neg (not_lt.mpr h0), if_neg (not_lt.mpr h02),
    min_eq_right h01, min_eq_right h1, max_eq_right h0, max_eq_right h02]
  have ha : 0 < max 0 (min (1/2) ((3:ℚ)/10 / s)) := by
    have hq : (0:ℚ) < (3:ℚ)/10 / s := div_pos (by norm_num) hspos
    have : (0:ℚ) < min (1/2) ((3:ℚ)/10 / s) := lt_min (by norm_num) hq
    exact lt_of_lt_of_le this (le_max_right _ _)
  have := scale_piecewise_mono (max 0 (min (1/2) ((3:ℚ)/10 / s)))
    (max (1/2) (min 1 ((7:ℚ)/10 * s))) r1 r2 ha h12
  linarith

/-- Witness for the amended C1 theorem at `s = 1`, `r1 = 1/5`,
`r2 = 2/5`. -/
theorem apply_nonlinear_scaling_mono_nonneg_witness :
    ((1:ℚ)/10 ≤ 1 ∧ (1:ℚ) ≤ 10 ∧ (0:ℚ) ≤ 1/5 ∧ (1:ℚ)/5 ≤ 2/5
      ∧ (2:ℚ)/5 ≤ 1)
    ∧ apply_nonlinear_scaling (1/5) 1 (3/10) (7/10) true
      ≤ apply_nonlinear_scaling (2/5) 1 (3/10) (7/10) true :=
  ⟨by norm_num,
    apply_nonlinear_scaling_mono_nonneg 1 (1/5) (2/5) (by norm_num)
      (by norm_num) (by norm_num) (by norm_num) (by norm_num)⟩

/-- Claim C2 (counterexample): holding the raw score fixed at the mid-range
value `1/2`, with thresholds (0.3, 0.7) and non-linear scaling enabled,
increasing the sensitivity from 0.5 to 1.0 strictly increases the
calibrated score (−4/5 to −3/10), so the calibrated score is not
strictly decreasing over the sweep {0.5, 1.0, 2.0, 5.0}. -/
theorem sensitivity_sweep_not_decreasing :
    apply_nonlinear_scaling (1/2) (1/2) (3/10) (7/10) true
      < apply_nonlinear_scaling (1/2) 1 (3/10) (7/10) true
    ∧ ¬ (apply_nonlinear_scaling (1/2) 1 (3/10) (7/10) true
      < apply_nonlinear_scaling (1/2) (1/2) (3/10) (7/10) true) := by
  norm_num [apply_nonlinear_scaling, scale_piecewise, min_def, max_def]

/-- Claim C2 (amended): at the mid-range raw score `1/2` with thresholds
(0.3, 0.7) and non-linear scaling enabled, the calibrated score over
the sensitivity sweep {0.5, 1.0, 2.0, 5.0} is not monotone: it rises
from sensitivity 0.5 to 1.0, falls from 1.0 to 2.0, and rises again
from 2.0 to 5.0 (while staying below the 1.0 value). -/
theorem sensitivity_sweep_pattern :
    apply_nonlinear_scaling (1/2) (1/2) (3/10) (7/10) true
      < apply_nonlinear_scaling (1/2) 1 (3/10) (7/10) true
    ∧ apply_nonlinear_scaling (1/2) 2 (3/10) (7/10) true
      < apply_nonlinear_scaling (1/2) 1 (3/10) (7/10) true
    ∧ apply_nonlinear_scaling (1/2) 2 (3/10) (7/10) true
      < apply_nonlinear_scaling (1/2) 5 (3/10) (7/10) true
    ∧ apply_nonlinear_scaling (1/2) 5 (3/10) (7/10) true
      < apply_nonlinear_scaling (1/2) 1 (3/10) (7/10) true := by
  norm_num [apply_nonlinear_scaling, scale_piecewise, min_def, max_def]

/-- Claim C5: for decoded images with positive dimensions, the SSIM window
size computed by `compare_images` is the largest odd number that is at
most `min 7 min_dim`: it is odd, positive, bounded by the smaller
dimension and by 7, and any odd candidate below both bounds is at most
it; in particular a 1x1 common size yields window size 1. -/
theorem ssim_win_size_spec (min_dim : ℕ) (hd : 1 ≤ min_dim) :
    ssim_win_size min_dim % 2 = 1
    ∧ 0 < ssim_win_size min_dim
    ∧ ssim_win_size min_dim ≤ (min_dim : ℤ)
    ∧ ssim_win_size min_dim ≤ 7
    ∧ (∀ k : ℤ, k % 2 = 1 → k ≤ 7 → k ≤ (min_dim : ℤ) →
        k ≤ ssim_win_size min_dim)
    ∧ ssim_win_size 1 = 1 := by
  unfold ssim_win_size
  refine ⟨?_, ?_, ?_, ?_, fun k hk h7 hdim => ?_, ?_⟩ <;>
    split_ifs with h <;> omega

/-- Witness for C5 at the degenerate dimension 1 (a 1x1 image). -/
theorem ssim_win_size_spec_witness :
    1 ≤ 1
    ∧ (ssim_win_size 1 % 2 = 1
      ∧ 0 < ssim_win_size 1
      ∧ ssim_win_size 1 ≤ ((1 : ℕ) : ℤ)
      ∧ ssim_win_size 1 ≤ 7
      ∧ (∀ k : ℤ, k % 2 = 1 → k ≤ 7 → k ≤ ((1 : ℕ) : ℤ) →
          k ≤ ssim_win_size 1)
      ∧ ssim_win_size 1 = 1) :=
  ⟨by norm_num, ssim_win_size_spec 1 (by norm_num)⟩

/-- Claim C7: with non-linear scaling disabled the calibrator is the
identity, for every raw score, sensitivity and threshold values. -/
theorem apply_nonlinear_scaling_passthrough
    (raw_score sensitivity min_threshold max_threshold : ℚ) :
    apply_nonlinear_scaling raw_score sensitivity min_threshold
      max_threshold false = raw_score := rfl

/-! ### Structural lemmas about the comparison results -/

theorem compare_images_shape (env : CompareEnv) (b1 b2 : List ℕ) :
    (∃ q p, compare_images env b1 b2 =
      { success := true, similarity_score := some q,
        similarity_percentage := some p, method := some "ssim",
        error := none })
    ∨ (∃ e, compare_images env b1 b2 =
      { success := false, error := some e }) := by
  unfold compare_images
  split
  · dsimp only
    split
    · exact Or.inl ⟨_, _, rfl⟩
    · exact Or.inr ⟨_, rfl⟩
  · exact Or.inr ⟨_, rfl⟩

theorem compare_images_wf (env : CompareEnv) (b1 b2 : List ℕ) :
    result_wellformed (compare_images env b1 b2) := by
  rcases compare_images_shape env b1 b2 with ⟨q, p, h⟩ | ⟨e, h⟩ <;>
    rw [result_wellformed, h] <;> simp

theorem result_wellformed_set_method (r : ComparisonResult)
    (m : Option String) (h : result_wellformed r) :
    result_wellformed { r with method := m } := by
  rcases h with ⟨h1, h2, h3, h4⟩ | ⟨h1, h2, h3, h4⟩
  · exact Or.inl ⟨h1, h2, h3, h4⟩
  · exact Or.inr ⟨h1, h2, h3, h4⟩

theorem compare_images_embeddings_wf (env : CompareEnv) (st : AppSettings)
    (b1 b2 : List ℕ) (sensitivity : ℚ) :
    result_wellformed (compare_images_embeddings env st b1 b2 sensitivity) := by
  unfold compare_images_embeddings
  split
  · exact Or.inl ⟨rfl, by simp, by simp, rfl⟩
  · exact compare_images_wf env b1 b2

theorem compare_images_hybrid_wf (env : CompareEnv) (st : AppSettings)
    (b1 b2 : List ℕ) (embedding_weight ssim_weight sensitivity : ℚ) :
    result_wellformed (compare_images_hybrid env st b1 b2 embedding_weight
      ssim_weight sensitivity) := by
  unfold compare_images_hybrid
  dsimp only
  split
  · exact compare_images_embeddings_wf env st b1 b2 sensitivity
  · split
    · split
      · exact Or.inl ⟨rfl, by simp, by simp, rfl⟩
      · exact Or.inr ⟨rfl, by simp, rfl, rfl⟩
    · exact result_wellformed_set_method _ _ (compare_images_wf env b1 b2)

theorem compare_images_method_cases (env : CompareEnv) (b1 b2 : List ℕ) :
    ((compare_images env b1 b2).success = true
      ∧ (compare_images env b1 b2).method = some "ssim")
    ∨ ((compare_images env b1 b2).success = false
      ∧ (compare_images env b1 b2).method = none) := by
  rcases compare_images_shape env b1 b2 with ⟨q, p, h⟩ | ⟨e, h⟩ <;>
    rw [h] <;> simp

theorem clamp01_idem (x : ℚ) :
    max 0 (min 1 (max 0 (min 1 x))) = max 0 (min 1 x) := by
  have h1 : (0:ℚ) ≤ max 0 (min 1 x) := le_max_left _ _
  have h2 : max 0 (min 1 x) ≤ 1 := max_le (by norm_num) (min_le_left _ _)
  rw [min_eq_right h2, max_eq_right h1]

/-- When both images are non-empty, the per-call sensitivity is non-zero
and the per-call method is `"embeddings"`, the workflow runs the
embeddings comparison with exactly that per-call sensitivity (no range
check anywhere on the path). -/
theorem run_embeddings (env : CompareEnv) (st : AppSettings)
    (b1 b2 : List ℕ) (s : ℚ) (h1 : b1 ≠ []) (h2 : b2 ≠ []) (hs : s ≠ 0) :
    run_image_comparison env st b1 b2 (some "embeddings") (some s) =
      { image1_bytes := b1, image2_bytes := b2,
        method := some "embeddings", sensitivity := some s,
        success := (compare_images_embeddings env st b1 b2 s).success,
        similarity_score :=
          (compare_images_embeddings env st b1 b2 s).similarity_score,
        similarity_percentage :=
          (compare_images_embeddings env st b1 b2 s).similarity_percentage,
        method_used :=
          some (pyOrStr (compare_images_embeddings env st b1 b2 s).method
            "embeddings"),
        error := (compare_images_embeddings env st b1 b2 s).error } := by
  unfold run_image_comparison validate_images should_compare compare_node
    strTruthy pyOrStr pyOrQ
  simp [h1, h2, hs]

theorem emb_at_15 :
    compare_images_embeddings sampleEnv defaultSettings [0] [1] 15 =
      { success := true, similarity_score := some (9/10),
        similarity_percentage := some (549/10),
        method := some "embeddings", error := none } := by
  unfold compare_images_embeddings sampleEnv defaultSettings
  norm_num [apply_nonlinear_scaling, scale_piecewise, roundTo, round_eq,
    min_def, max_def]

theorem emb_at_1 :
    compare_images_embeddings sampleEnv defaultSettings [0] [1] 1 =
      { success := true, similarity_score := some (9/10),
        similarity_percentage := some (8667/100),
        method := some "embeddings", error := none } := by
  unfold compare_images_embeddings sampleEnv defaultSettings
  norm_num [apply_nonlinear_scaling, scale_piecewise, roundTo, round_eq,
    min_def, max_def]

/-! ### Remaining claim theorems -/

/-- Claim C3 (counterexample): a comparison call with per-call
sensitivity 15 — outside [0.1, 10.0] — is not rejected: the workflow
returns success with no error, and the out-of-range sensitivity is
actually used (the calibrated percentage differs from the one obtained
with sensitivity 1 on the same inputs). -/
theorem per_call_sensitivity_not_rejected :
    (10 : ℚ) < 15
    ∧ (run_image_comparison sampleEnv defaultSettings [0] [1]
        (some "embeddings") (some 15)).success = true
    ∧ (run_image_comparison sampleEnv defaultSettings [0] [1]
        (some "embeddings") (some 15)).error = none
    ∧ (run_image_comparison sampleEnv defaultSettings [0] [1]
        (some "embeddings") (some 15)).similarity_percentage
      ≠ (run_image_comparison sampleEnv defaultSettings [0] [1]
        (some "embeddings") (some 1)).similarity_percentage := by
  have h15 := run_embeddings sampleEnv defaultSettings [0] [1] 15
    (by simp) (by simp) (by norm_num)
  have h1 := run_embeddings sampleEnv defaultSettings [0] [1] 1
    (by simp) (by simp) (by norm_num)
  rw [emb_at_15] at h15
  rw [emb_at_1] at h1
  rw [h15, h1]
  norm_num

/-- Claim C3 (amended): sensitivity values outside [0.1, 10.0] are
rejected only by the process-wide sensitivity setter of the
configuration (which raises a `ValueError`); a per-call out-of-range
sensitivity is not validated anywhere and is handed unchanged to the
comparison function. -/
theorem sensitivity_rejected_only_at_setter (env : CompareEnv)
    (st : AppSettings) (b1 b2 : List ℕ) (v : ℚ)
    (hv : v < 1/10 ∨ 10 < v) (h1 : b1 ≠ []) (h2 : b2 ≠ []) (hnz : v ≠ 0) :
    set_sensitivity v
      = Except.error "Sensitivity must be between 0.1 and 10.0"
    ∧ (run_image_comparison env st b1 b2 (some "embeddings")
        (some v)).success = (compare_images_embeddings env st b1 b2 v).success
    ∧ (run_image_comparison env st b1 b2 (some "embeddings")
        (some v)).similarity_percentage
      = (compare_images_embeddings env st b1 b2 v).similarity_percentage
    ∧ (run_image_comparison env st b1 b2 (some "embeddings")
        (some v)).error = (compare_images_embeddings env st b1 b2 v).error := by
  have hrun := run_embeddings env st b1 b2 v h1 h2 hnz
  refine ⟨?_, ?_, ?_, ?_⟩
  · unfold set_sensitivity
    rw [if_pos hv]
  · rw [hrun]
  · rw [hrun]
  · rw [hrun]

/-- Witness for the amended C3 theorem at sensitivity 15 with the
sample environment. -/
theorem sensitivity_rejected_only_at_setter_witness :
    (((15:ℚ) < 1/10 ∨ (10:ℚ) < 15) ∧ ([0] : List ℕ) ≠ []
      ∧ ([1] : List ℕ) ≠ [] ∧ (15:ℚ) ≠ 0)
    ∧ (set_sensitivity 15
        = Except.error "Sensitivity must be between 0.1 and 10.0"
      ∧ (run_image_comparison sampleEnv defaultSettings [0] [1]
          (some "embeddings") (some 15)).success
        = (compare_images_embeddings sampleEnv defaultSettings [0] [1]
            15).success
      ∧ (run_image_comparison sampleEnv defaultSettings [0] [1]
          (some "embeddings") (some 15)).similarity_percentage
        = (compare_images_embeddings sampleEnv defaultSettings [0] [1]
            15).similarity_percentage
      ∧ (run_image_comparison sampleEnv defaultSettings [0] [1]
          (some "embeddings") (some 15)).error
        = (compare_images_embeddings sampleEnv defaultSettings [0] [1]
            15).error) :=
  ⟨⟨Or.inr (by norm_num), by simp, by simp, by norm_num⟩,
    sensitivity_rejected_only_at_setter sampleEnv defaultSettings [0] [1] 15
      (Or.inr (by norm_num)) (by simp) (by simp) (by norm_num)⟩

/-- Claim C4: every result returned by `compare_images`,
`compare_images_embeddings` or `compare_images_hybrid` — for every
oracle environment, settings, input buffers, weights and sensitivity —
has exactly one of its two sides populated: success with non-null score
and percentage and null error, or failure with non-null error and null
score and percentage. -/
theorem comparison_results_wellformed (env : CompareEnv) (st : AppSettings)
    (b1 b2 : List ℕ) (sensitivity embedding_weight ssim_weight : ℚ) :
    result_wellformed (compare_images env b1 b2)
    ∧ result_wellformed (compare_images_embeddings env st b1 b2 sensitivity)
    ∧ result_wellformed (compare_images_hybrid env st b1 b2 embedding_weight
        ssim_weight sensitivity) :=
  ⟨compare_images_wf env b1 b2,
    compare_images_embeddings_wf env st b1 b2 sensitivity,
    compare_images_hybrid_wf env st b1 b2 embedding_weight ssim_weight
      sensitivity⟩

/-- Claim C6: when extracting the embedding of either image returns the
unavailable sentinel `none`, `compare_images_embeddings` returns exactly
the result of `compare_images` on the same two byte buffers; its method
field is never `"embeddings"`, and on success it is `"ssim"`. -/
theorem compare_images_embeddings_fallback (env : CompareEnv)
    (st : AppSettings) (b1 b2 : List ℕ) (sensitivity : ℚ)
    (h : env.extract b1 = none ∨ env.extract b2 = none) :
    compare_images_embeddings env st b1 b2 sensitivity
      = compare_images env b1 b2
    ∧ (compare_images_embeddings env st b1 b2 sensitivity).method
      ≠ some "embeddings"
    ∧ ((compare_images_embeddings env st b1 b2 sensitivity).success = true →
        (compare_images_embeddings env st b1 b2 sensitivity).method
          = some "ssim") := by
  have hfall : compare_images_embeddings env st b1 b2 sensitivity
      = compare_images env b1 b2 := by
    unfold compare_images_embeddings
    rcases h1 : env.extract b1 with _ | e1 <;>
      rcases h2 : env.extract b2 with _ | e2 <;> simp_all
  refine ⟨hfall, ?_, ?_⟩
  · rw [hfall]
    rcases compare_images_method_cases env b1 b2 with ⟨_, hm⟩ | ⟨_, hm⟩ <;>
      rw [hm] <;> simp
  · intro hsucc
    rw [hfall] at hsucc ⊢
    rcases compare_images_method_cases env b1 b2 with ⟨_, hm⟩ | ⟨hf, hm⟩
    · exact hm
    · rw [hf] at hsucc
      cases hsucc

/-- Witness for C6 with the embedding encoder forced unavailable. -/
theorem compare_images_embeddings_fallback_witness :
    (sampleEnvNoEmb.extract [0] = none ∨ sampleEnvNoEmb.extract [1] = none)
    ∧ (compare_images_embeddings sampleEnvNoEmb defaultSettings [0] [1] 1
        = compare_images sampleEnvNoEmb [0] [1]
      ∧ (compare_images_embeddings sampleEnvNoEmb defaultSettings [0] [1]
          1).method ≠ some "embeddings"
      ∧ ((compare_images_embeddings sampleEnvNoEmb defaultSettings [0] [1]
          1).success = true →
          (compare_images_embeddings sampleEnvNoEmb defaultSettings [0] [1]
            1).method = some "ssim")) :=
  ⟨Or.inl rfl,
    compare_images_embeddings_fallback sampleEnvNoEmb defaultSettings [0] [1]
      1 (Or.inl rfl)⟩

/-- Claim C8: when `compare_images_hybrid` is called with
`embedding_weight = 1` and `ssim_weight = 0`, the structural comparison
succeeds and both embedding extractions succeed, the returned
`similarity_score` is exactly the cosine similarity of the two
embeddings clamped to [0, 1] and rounded to 4 decimals — the structural
score contributes weight zero. -/
theorem hybrid_degenerate_weights (env : CompareEnv) (st : AppSettings)
    (b1 b2 : List ℕ) (sensitivity : ℚ) (e1 e2 : List ℚ)
    (hss : (compare_images env b1 b2).success = true)
    (h1 : env.extract b1 = some e1) (h2 : env.extract b2 = some e2) :
    (compare_images_hybrid env st b1 b2 1 0 sensitivity).similarity_score
      = some (roundTo 4 (max 0 (min 1 (env.cosSim e1 e2)))) := by
  rcases compare_images_shape env b1 b2 with ⟨q, p, heq⟩ | ⟨e, heq⟩
  · unfold compare_images_hybrid
    rw [heq]
    simp only [h1, h2]
    norm_num [clamp01_idem]
  · rw [heq] at hss
    simp at hss

/-- Witness for C8 with the sample environment (cosine similarity
9/10). -/
theorem hybrid_degenerate_weights_witness :
    ((compare_images sampleEnv [0] [1]).success = true
      ∧ sampleEnv.extract [0] = some [1, 0]
      ∧ sampleEnv.extract [1] = some [1, 0])
    ∧ (compare_images_hybrid sampleEnv defaultSettings [0] [1] 1 0
        1).similarity_score
      = some (roundTo 4 (max 0 (min 1 (sampleEnv.cosSim [1, 0] [1, 0])))) :=
  ⟨⟨rfl, rfl, rfl⟩,
    hybrid_degenerate_weights sampleEnv defaultSettings [0] [1] 1 [1, 0]
      [1, 0] rfl rfl rfl⟩

/-- Claim C9: on a successful structural comparison with raw SSIM
statistic `raw ∈ [-1, 1]`, `compare_images` returns success with
`similarity_score = raw` rounded to 4 decimals and
`similarity_percentage = (raw + 1) / 2 * 100` rounded to 2 decimals. -/
theorem compare_images_success_formula (env : CompareEnv) (b1 b2 : List ℕ)
    (w1 h1 w2 h2 : ℕ) (raw : ℚ)
    (hd1 : env.decode b1 = some (w1, h1)) (hd2 : env.decode b2 = some (w2, h2))
    (hs : env.rawSSIM b1 b2 (min w1 w2, min h1 h2)
      (ssim_win_size (min (min w1 w2) (min h1 h2))) = some raw)
    (hlo : -1 ≤ raw) (hhi : raw ≤ 1) :
    compare_images env b1 b2 =
      { success := true
        similarity_score := some (roundTo 4 raw)
        similarity_percentage := some (roundTo 2 ((raw + 1) / 2 * 100))
        method := some "ssim"
        error := none } := by
  unfold compare_images
  rw [hd1, hd2]
  dsimp only
  rw [hs]

/-- Witness for C9 with the sample environment: both images decode to
8x8 and the SSIM statistic is 1/2. -/
theorem compare_images_success_formula_witness :
    (sampleEnv.decode [0] = some (8, 8)
      ∧ sampleEnv.decode [1] = some (8, 8)
      ∧ sampleEnv.rawSSIM [0] [1] (min 8 8, min 8 8)
          (ssim_win_size (min (min 8 8) (min 8 8))) = some (1/2)
      ∧ (-1 : ℚ) ≤ 1/2 ∧ (1/2 : ℚ) ≤ 1)
    ∧ compare_images sampleEnv [0] [1] =
      { success := true
        similarity_score := some (roundTo 4 (1/2))
        similarity_percentage := some (roundTo 2 ((1/2 + 1) / 2 * 100))
        method := some "ssim"
        error := none } :=
  ⟨⟨rfl, rfl, rfl, by norm_num, by norm_num⟩,
    compare_images_success_formula sampleEnv [0] [1] 8 8 8 8 (1/2) rfl rfl
      rfl (by norm_num) (by norm_num)⟩

/-- Claim C10: when either input byte buffer of the comparison workflow
is empty, the workflow returns failure with an error naming the missing
image, and the comparison stage is never invoked (the outcome is
independent of the comparison oracle environment). -/
theorem workflow_rejects_empty (env env' : CompareEnv) (st : AppSettings)
    (b1 b2 : List ℕ) (method : Option String) (sensitivity : Option ℚ)
    (h : b1 = [] ∨ b2 = []) :
    (run_image_comparison env st b1 b2 method sensitivity).success = false
    ∧ (run_image_comparison env st b1 b2 method sensitivity).error ≠ none
    ∧ (b1 = [] →
        (run_image_comparison env st b1 b2 method sensitivity).error
          = some "First image is required")
    ∧ (b1 ≠ [] →
        (run_image_comparison env st b1 b2 method sensitivity).error
          = some "Second image is required")
    ∧ run_image_comparison env st b1 b2 method sensitivity
        = run_image_comparison env' st b1 b2 method sensitivity := by
  by_cases hb1 : b1 = []
  · subst hb1
    simp [run_image_comparison, validate_images, should_compare, strTruthy]
  · have hb2 : b2 = [] := by tauto
    subst hb2
    simp [run_image_comparison, validate_images, should_compare, strTruthy,
      hb1]

/-- Witness for C10: an empty first image with two different oracle
environments. -/
theorem workflow_rejects_empty_witness :
    (([] : List ℕ) = [] ∨ ([0] : List ℕ) = [])
    ∧ ((run_image_comparison sampleEnv defaultSettings [] [0] none
        none).success = false
      ∧ (run_image_comparison sampleEnv defaultSettings [] [0] none
          none).error ≠ none
      ∧ (([] : List ℕ) = [] →
          (run_image_comparison sampleEnv defaultSettings [] [0] none
            none).error = some "First image is required")
      ∧ (([] : List ℕ) ≠ [] →
          (run_image_comparison sampleEnv defaultSettings [] [0] none
            none).error = some "Second image is required")
      ∧ run_image_comparison sampleEnv defaultSettings [] [0] none none
          = run_image_comparison sampleEnvNoEmb defaultSettings [] [0] none
            none) :=
  ⟨Or.inl rfl,
    workflow_rejects_empty sampleEnv sampleEnvNoEmb defaultSettings [] [0]
      none none (Or.inl rfl)⟩

end ImageStand
